import Mathlib

/-!
# Verification of the daily-advice aggregation bot

A shallow embedding, in Lean 4, of the cache / domain-query-client /
aggregator / delivery-sink pipeline of the `daily_advice` repository
(`almanac_query.py`, `solar_terms_query.py`, `holiday_query.py`,
`glm4_query.py`, `news_integration_api.py`, `feishu_bot.py`,
`crypto_news_api.py`).

Python dictionaries and JSON payloads are modelled by the inductive `Json`
type below; SQLite tables become association lists with `INSERT OR REPLACE`
semantics; outbound HTTP calls and the LLM service are oracles passed in as
explicit arguments (`Option Json`: `none` models the request raising an
exception, `some j` models a reply whose `.json()` parsed to `j`;
`json.loads` on LLM reply text is `Except String Json`, the error carrying
the decoder's `str(e)`); the number of outbound calls a code path performs
is returned explicitly so that call-count properties can be stated.
-/

/-- A JSON value / Python dict, as handled by `json.loads` / `json.dumps`.
Numbers are modelled as integers (no float appears in any cached payload the
claims touch). -/
inductive Json where
  | obj (entries : List (String × Json))
  | arr (items : List Json)
  | str (text : String)
  | num (value : Int)
  | bool (flag : Bool)
  | null
deriving Repr

namespace Json

/-- Python `d.get(key)` on a dict; `none` both for a missing key and for a
receiver that is not a dict (where CPython would raise `AttributeError`;
call sites that rely on that exception are modelled explicitly). -/
def get (j : Json) (key : String) : Option Json :=
  match j with
  | .obj fields => (fields.find? (fun kv => kv.1 = key)).map (fun kv => kv.2)
  | _ => none

/-- Python truthiness of a JSON value (`if cached_data:` and friends). -/
def truthy : Json → Bool
  | .null => false
  | .bool b => b
  | .num n => n != 0
  | .str s => s != ""
  | .arr elems => !elems.isEmpty
  | .obj fields => !fields.isEmpty

/-- Python `x == n` for an int literal `n`: true exactly when `x` is the
number `n` (any other JSON type compares unequal, not an error). -/
def eqNum (j : Json) (n : Int) : Bool :=
  match j with
  | .num m => m == n
  | _ => false

end Json

mutual

/-- Structural (deep) equality of JSON values — Python `==` on parsed JSON,
and SQLite value comparison on the stored columns the claims touch. -/
def Json.beq (a b : Json) : Bool :=
  match a, b with
  | .obj fs, .obj gs => Json.beqPairs fs gs
  | .arr xs, .arr ys => Json.beqElems xs ys
  | .str u, .str v => u == v
  | .num u, .num v => u == v
  | .bool u, .bool v => u == v
  | .null, .null => true
  | _, _ => false

/-- Elementwise `Json.beq` on array elements. -/
def Json.beqElems (xs ys : List Json) : Bool :=
  match xs, ys with
  | u :: us, v :: vs => Json.beq u v && Json.beqElems us vs
  | [], [] => true
  | _, _ => false

/-- Elementwise `Json.beq` on object field lists (order-sensitive, like the
underlying association lists). -/
def Json.beqPairs (fs gs : List (String × Json)) : Bool :=
  match fs, gs with
  | (ka, va) :: us, (kb, vb) :: vs =>
    ka == kb && Json.beq va vb && Json.beqPairs us vs
  | [], [] => true
  | _, _ => false

end

/-- SQL `column = ?` comparison on possibly-NULL column values: a NULL on
either side never matches (both-`none` is `true` only because no call site
compares against a NULL binding). -/
def optJsonBeq : Option Json → Option Json → Bool
  | some a, some b => Json.beq a b
  | none, none => true
  | _, _ => false

/-- Python `d.get(key) == n` for an int literal `n` (`None` compares
unequal). -/
def optEqNum (o : Option Json) (n : Int) : Bool :=
  match o with
  | some j => j.eqNum n
  | none => false

/-- Truthiness of an `Optional` value returned by a cache read:
`None` is falsy, a value is as truthy as the value. -/
def optTruthy : Option Json → Bool
  | none => false
  | some j => j.truthy

/-- Truthiness of an `Optional[str]` (`if name:` in `SolarTermsQuery.query`). -/
def strOptTruthy : Option String → Bool
  | none => false
  | some s => s != ""

/-- Guard for the access pattern `x.get('result', {})` followed by an
attribute access on the result (the field extraction of
`AlmanacQuery.save_to_cache`, the holiday-status lookup of
`GLM4Query.get_daily_advice`): the accesses succeed iff `x` is a dict whose
`result` value (defaulting to the empty dict) is itself a dict; otherwise
CPython raises `AttributeError`. -/
def resultFieldIsDict (x : Json) : Bool :=
  match x with
  | .obj _ =>
    match (x.get "result").getD (.obj []) with
    | .obj _ => true
    | _ => false
  | _ => false

/-- Python `str()` of a JSON value as interpolated by an f-string. The
envelope `message` fields so interpolated are strings in every modelled
run; container rendering is abbreviated (CPython would print a full repr). -/
def pyStr : Json → String
  | .str s => s
  | .num n => toString n
  | .bool b => if b then "True" else "False"
  | .null => "None"
  | .arr _ => "[...]"
  | .obj _ => "\x7b...\x7d"

namespace AlmanacQuery

/-- The `almanac_cache` table, `date TEXT PRIMARY KEY`, keyed row = the
parsed `raw_data` column (the only column `get_from_cache` reads back). -/
abbrev Cache := List (String × Json)

/-- `SELECT raw_data FROM almanac_cache WHERE date = ?` followed by
`json.loads` — `AlmanacQuery.get_from_cache`. Returns `none` on a missing
row. (A storage/parse failure is also logged and turned into `None` by the
source; storage reads are modelled as healthy.) -/
def get_from_cache (cache : Cache) (date : String) : Option Json :=
  (cache.find? (fun kv => kv.1 = date)).map (fun kv => kv.2)

/-- `AlmanacQuery.save_to_cache` (src/almanac_query.py:89-120). The body
first extracts `result = data.get('result', {})` and then the columns via
`result.get('yangli')` etc.: for a non-dict payload, or a payload whose
`result` value is not a dict, these accesses raise `AttributeError`, which
the method's own `except` arm catches and swallows — NOTHING is written.
Otherwise `INSERT OR REPLACE` stores the row: `date` is the primary key,
so a previous row for the same date is replaced; `raw_data` stores
`json.dumps(data)`, which `get_from_cache` parses back (serialisation
round-trip is the identity on the `Json` model). The derived columns
(`yangli`, `yinli`, ...) are projections never read back by
`get_from_cache` and are not modelled separately. -/
def save_to_cache (cache : Cache) (date : String) (data : Json) : Cache :=
  if resultFieldIsDict data then
    (date, data) :: cache.filter (fun kv => kv.1 ≠ date)
  else cache

/-- Number of rows a given date key occupies in the table. -/
def keyCount (cache : Cache) (date : String) : Nat :=
  (cache.filter (fun kv => kv.1 = date)).length

/-- The envelope `{'error_code': -1, 'reason': '请求发生错误'}` produced by the
`except` arm of `AlmanacQuery.query_almanac`. -/
def requestErrorEnvelope : Json :=
  .obj [("error_code", .num (-1)), ("reason", .str "请求发生错误")]

/-- The cache-miss tail of `AlmanacQuery.query_almanac`
(src/almanac_query.py:191-211): one outbound GET, success check on the
provider's own `error_code`, conditional cache write.

* `httpResp` is the HTTP oracle for `requests.get(self.base_url, params)`:
  `none` models any exception out of the request or `response.json()`,
  `some r` a body whose `.json()` parsed to `r`;
* `dbOutcome` models the storage outcome of the `save_to_cache` call on the
  success path (`none` = write succeeded, `some e` = sqlite raised, which
  `save_to_cache` logs and swallows, leaving the table unchanged). -/
def queryFetch (date : String) (cache : Cache) (httpResp : Option Json)
    (dbOutcome : Option String) : Json × Cache × Nat :=
  match httpResp with
  | none => (requestErrorEnvelope, cache, 1)
  | some result =>
    match result with
    | .obj _ =>
      if optEqNum (result.get "error_code") 0 then
        let cache' := match dbOutcome with
          | none => save_to_cache cache date result
          | some _ => cache  -- write failure logged inside save_to_cache, no raise
        (result, cache', 1)
      else (result, cache, 1)
    | _ =>
      -- `result.get('error_code')` on a non-dict raises `AttributeError`,
      -- caught by the surrounding `except` arm.
      (requestErrorEnvelope, cache, 1)

/-- `AlmanacQuery.query_almanac` (src/almanac_query.py:172-211).
`currentDate` models `get_current_date()` (used when `query_date` is falsy).
Returns `(envelope, cache', httpCalls)` where `httpCalls` counts outbound
`requests.get` calls performed by this invocation. -/
def query_almanac (queryDate : Option String) (currentDate : String)
    (cache : Cache) (httpResp : Option Json) (dbOutcome : Option String) :
    Json × Cache × Nat :=
  let date := match queryDate with
    | some d => if d ≠ "" then d else currentDate
    | none => currentDate
  match get_from_cache cache date with
  | some cached =>
    if cached.truthy then (cached, cache, 0)
    else
      -- `if cached_data:` is a truthiness test: a falsy parsed payload is
      -- treated exactly like a miss and falls through to the HTTP call.
      queryFetch date cache httpResp dbOutcome
  | none => queryFetch date cache httpResp dbOutcome

end AlmanacQuery

namespace SolarTermsQuery

/-- One row of the `solar_terms_cache` table, `UNIQUE(pub_year, name)`.
`pubYear`/`name` hold the values bound into those columns
(`data.get('pub_year')` / `data.get('name')`, possibly `NULL`); `raw`
is the parsed `raw_data` column. -/
structure SolarRow where
  pubYear : Option Json
  name : Option Json
  raw : Json
deriving Repr

abbrev SolarCache := List SolarRow

/-- `SolarTermsQuery.convert_date_format` (src/solar_terms_query.py:83-99):
"2月3日" with year "2024" becomes "2024-02-03"; any failure of the
unpacking or of `int()` is caught and the original string returned. -/
def convert_date_format (dateStr year : String) : String :=
  match (dateStr.replace "日" "").splitOn "月" with
  | [m, d] =>
    match m.toNat?, d.toNat? with
    | some mn, some dn =>
      let pad := fun (n : Nat) => if n < 10 then "0" ++ toString n else toString n
      year ++ "-" ++ pad mn ++ "-" ++ pad dn
    | _, _ => dateStr
  | _ => dateStr

/-- Replace (or add) the value of a key in a JSON object — the dict-merge
`{**data, 'pub_date': pub_date}` stored into `raw_data` by
`SolarTermsQuery.save_to_cache`. -/
def Json.setKey (j : Json) (key : String) (v : Json) : Json :=
  match j with
  | .obj fields => .obj ((fields.filter (fun kv => kv.1 ≠ key)) ++ [(key, v)])
  | other => other

/-- `SolarTermsQuery.save_to_cache` (src/solar_terms_query.py:145-180) for a
single solar-term item: the stored `raw_data` is the item with its
`pub_date` field rewritten to the converted format; `INSERT OR REPLACE`
under `UNIQUE(pub_year, name)` replaces an existing row with the same
non-NULL key pair (SQLite treats NULLs in a UNIQUE constraint as distinct,
so a row with a NULL key component is simply added). A non-dict item makes
`data.get` raise inside this method's own `try`, which logs and leaves the
table unchanged. -/
def save_to_cache (cache : SolarCache) (data : Json) : SolarCache :=
  match data with
  | .obj _ =>
    let pubDate := match data.get "pub_date" with
      | some (.str s) => s
      | _ => ""
    let year := match data.get "pub_year" with
      | some (.str s) => s
      | _ => ""
    let raw := Json.setKey data "pub_date" (.str (convert_date_format pubDate year))
    let row : SolarRow := ⟨data.get "pub_year", data.get "name", raw⟩
    match data.get "pub_year", data.get "name" with
    | some y, some n =>
      row :: cache.filter (fun r =>
        !(optJsonBeq r.pubYear (some y) && optJsonBeq r.name (some n)))
    | _, _ => row :: cache
  | _ => cache

/-- `SolarTermsQuery.get_from_cache` (src/solar_terms_query.py:118-143):
select rows by year (and by name when a truthy name is given) and wrap the
parsed `raw_data` columns in a success envelope; `None` when no row
matches. -/
def get_from_cache (cache : SolarCache) (year : String) (name : Option String) :
    Option Json :=
  let rows := if strOptTruthy name then
      cache.filter (fun r =>
        optJsonBeq r.pubYear (some (.str year)) &&
        optJsonBeq r.name (name.map Json.str))
    else
      cache.filter (fun r => optJsonBeq r.pubYear (some (.str year)))
  if rows.isEmpty then none
  else some (.obj [("error_code", .num 0),
                   ("reason", .str "success (from cache)"),
                   ("result", .arr (rows.map SolarRow.raw))])

/-- The `except` arm envelope of `SolarTermsQuery.query`. -/
def requestErrorEnvelope : Json :=
  .obj [("error_code", .num (-1)), ("reason", .str "请求发生错误")]

/-- `SolarTermsQuery.query` (src/solar_terms_query.py:182-221).
`currentYear` resolves a falsy `year` argument; `httpResp` is the oracle
for `requests.get(self.base_url, params)` as in `query_almanac`. On
provider success every element of the provider's `result` list is saved
(per-item write failures are swallowed inside `save_to_cache`; a
non-list `result` value is not iterated). Returns
`(envelope, cache', httpCalls)`. -/
def query (year : Option String) (currentYear : String) (name : Option String)
    (cache : SolarCache) (httpResp : Option Json) : Json × SolarCache × Nat :=
  let y := if strOptTruthy year then year.getD currentYear else currentYear
  match get_from_cache cache y name with
  | some cached => (cached, cache, 0)
  | none =>
    match httpResp with
    | none => (requestErrorEnvelope, cache, 1)
    | some result =>
      match result with
      | .obj _ =>
        if optEqNum (result.get "error_code") 0 then
          let items := match result.get "result" with
            | some (.arr xs) => xs
            | _ => []
          (result, items.foldl save_to_cache cache, 1)
        else (result, cache, 1)
      | _ => (requestErrorEnvelope, cache, 1)

/-- The `almanac_explanation_cache` table shared shape: key
`(field_name, field_value)`, value the explanation text. -/
abbrev ExplanationCache := List ((String × String) × String)

end SolarTermsQuery

namespace HolidayQuery

/-- The `holiday_cache` table, `date TEXT PRIMARY KEY`; the row content read
back by `get_from_cache` is the parsed `raw_data` column. -/
abbrev Cache := List (String × Json)

/-- `HolidayQuery.get_from_cache` (src/holiday_query.py:72-88): on a stored
row with truthy `raw_data` the parsed payload is wrapped in a success
envelope `{error_code: 0, reason: 'success (from cache)', result: ...}`.
A row whose `raw_data` column is NULL/empty fails the `if result and
result[0]:` test and reads as a miss. -/
def get_from_cache (cache : Cache) (date : String) : Option Json :=
  match (cache.find? (fun kv => kv.1 = date)).map (fun kv => kv.2) with
  | some raw =>
    some (.obj [("error_code", .num 0),
                ("reason", .str "success (from cache)"),
                ("result", raw)])
  | none => none

/-- `HolidayQuery.save_to_cache` (src/holiday_query.py:90-135): stores
`result.get('result', {})` under the date primary key (replace on
conflict); a write failure is logged and swallowed. -/
def save_to_cache (cache : Cache) (date : String) (data : Json) : Cache :=
  (date, data) :: cache.filter (fun kv => kv.1 ≠ date)

/-- The `except` arm envelope of `HolidayQuery.query_today`. -/
def requestErrorEnvelope : Json :=
  .obj [("error_code", .num (-1)), ("reason", .str "请求发生错误")]

/-- `HolidayQuery.query_today` (src/holiday_query.py:137-166). Returns
`(envelope, cache', httpCalls)`; `dbOutcome` as in `query_almanac`. -/
def query_today (currentDate : String) (cache : Cache) (httpResp : Option Json)
    (dbOutcome : Option String) : Json × Cache × Nat :=
  match get_from_cache cache currentDate with
  | some cached => (cached, cache, 0)
  | none =>
    match httpResp with
    | none => (requestErrorEnvelope, cache, 1)
    | some result =>
      match result with
      | .obj _ =>
        if optEqNum (result.get "error_code") 0 then
          let payload := (result.get "result").getD (.obj [])
          let cache' := match dbOutcome with
            | none => save_to_cache cache currentDate payload
            | some _ => cache
          (result, cache', 1)
        else (result, cache, 1)
      | _ => (requestErrorEnvelope, cache, 1)

end HolidayQuery

namespace CryptoNewsAPI

/-- `CryptoNewsAPI.fetch_crypto_news` (src/crypto_news_api.py:28-89).
`httpResp = none` models any of the three `except` arms (network error,
HTTP error status via `raise_for_status`, JSON decode error — each yields
`{'error_code': 1, 'message': ..., 'data': {}}` with only the interpolated
message text differing); `some d` a parsed body `d`. -/
def fetch_crypto_news (httpResp : Option Json) : Json :=
  match httpResp with
  | none =>
    .obj [("error_code", .num 1), ("message", .str "网络请求失败"),
          ("data", .obj [])]
  | some d =>
    match d with
    | .obj _ =>
      if optEqNum (d.get "status") 0 then
        .obj [("error_code", .num 0), ("message", .str "获取成功"),
              ("data", (d.get "data").getD (.obj []))]
      else
        .obj [("error_code", .num 1), ("message", .str "API返回错误"),
              ("data", .obj [])]
    | _ =>
      -- `data.get('status')` on a non-dict raises, landing in the generic
      -- `except Exception` arm.
      .obj [("error_code", .num 1), ("message", .str "获取新闻异常"),
            ("data", .obj [])]

end CryptoNewsAPI

namespace FeishuBot

/-- The in-memory token cache of `FeishuBot`: `self.access_token` and
`self.token_expires_at` (timestamps as integers, seconds). -/
structure State where
  accessToken : Option String
  tokenExpiresAt : Option Int
deriving Repr, DecidableEq

/-- The `if self.access_token and self.token_expires_at and now < expiry`
guard of `FeishuBot.get_access_token` (src/feishu_bot.py:82): the cached
token is reused only when it is a truthy (nonempty) string and the expiry
timestamp is strictly in the future. -/
def tokenAlive (st : State) (now : Int) : Bool :=
  match st.accessToken, st.tokenExpiresAt with
  | some t, some e => t != "" && now < e
  | _, _ => false

/-- `FeishuBot.get_access_token` (src/feishu_bot.py:73-114).
`authResp` is the oracle for the token `POST` (`none` = exception,
including `raise_for_status`). Returns `(token, state', fetchCalls)`:
on a live cached token, no fetch; otherwise exactly one fetch, and on
auth success the expiry is cached as `now + (expire − 300)` where `expire`
is the server-declared TTL (default 7200). -/
def get_access_token (st : State) (now : Int) (authResp : Option Json) :
    Option String × State × Nat :=
  if tokenAlive st now then
    (st.accessToken, st, 0)
  else
    match authResp with
    | none => (none, st, 1)
    | some result =>
      match result with
      | .obj _ =>
        if optEqNum (result.get "code") 0 then
          let token := match result.get "tenant_access_token" with
            | some (.str s) => some s
            | _ => none
          let expire := match result.get "expire" with
            | some (.num n) => n
            | _ => 7200
          let st' : State := ⟨token, some (now + (expire - 300))⟩
          (token, st', 1)
        else (none, st, 1)
      | _ => (none, st, 1)

/-- `FeishuBot.send_message` (src/feishu_bot.py:116-173). `postResp` is the
oracle for the message `POST`. Returns
`(success, state', fetchCalls, postCalls)`. -/
def send_message (st : State) (now : Int) (authResp : Option Json)
    (postResp : Option Json) : Bool × State × Nat × Nat :=
  let (token, st', fetches) := get_access_token st now authResp
  match token with
  | none => (false, st', fetches, 0)
  | some t =>
    if t = "" then
      -- `if not access_token:` — an empty-string token is falsy.
      (false, st', fetches, 0)
    else
      match postResp with
      | none => (false, st', fetches, 1)
      | some result =>
        if optEqNum (result.get "code") 0 then (true, st', fetches, 1)
        else (false, st', fetches, 1)

end FeishuBot

/-- The outcome of one `GLM4Query.query` call as seen by an aggregator:
either the envelope had `error_code == 0` and a reply text was extracted
via `response['data'].choices[0].message.content`, or `query` returned a
failure envelope (see `GLM4Query.glm4_query_envelope` for that envelope's
shape). -/
inductive LlmReply where
  | ok (content : String)
  | fail (envelope : Json)

namespace GLM4Query

/-- The envelope returned by `GLM4Query.query` (src/glm4_query.py:26-59).
`sdkOutcome` is the oracle for the ZhipuAI SDK call: `.ok content` a
response object whose `choices[0].message.content` is `content` (the
opaque SDK object stored under `data` is represented by that observable
reply text), `.error e` an SDK exception whose `str(e)` is `e`, wrapped
into `{'error_code': -1, 'message': f'请求发生错误: {str(e)}',
'data': None}`. -/
def glm4_query_envelope (sdkOutcome : Except String String) : Json :=
  match sdkOutcome with
  | .ok content =>
    .obj [("error_code", .num 0), ("message", .str "success"),
          ("data", .str content)]
  | .error e =>
    .obj [("error_code", .num (-1)),
          ("message", .str ("请求发生错误: " ++ e)), ("data", .null)]

/-- The `except` arm envelope of `get_daily_advice`
(src/glm4_query.py:159-165): `{'error_code': -1, 'message':
f'生成建议失败: {str(e)}', 'data': None}`. `excText` stands for CPython's
`str(e)` of the caught exception (for the KeyError on a missing `result`
key that is the quoted key name; for an AttributeError a type-specific
sentence); the call sites below pass the exception class name as a
stand-in, which no theorem inspects. -/
def generationFailure (excText : String) : Json :=
  .obj [("error_code", .num (-1)),
        ("message", .str ("生成建议失败: " ++ excText)),
        ("data", .null)]

/-- `GLM4Query.get_daily_advice` (src/glm4_query.py:61-165), the daily-advice
composer. Arguments:

* `solarResult` / `almanacResult` — the envelopes returned by
  `SolarTermsQuery.get_current_solar_term` and `AlmanacQuery.query_almanac`
  (the two required upstreams gating the composition);
* `holidayResult` — the holiday envelope: it only feeds the `is_holiday`
  flag and the prompt text, but the lookup
  `holiday_result.get('result', \x7b\x7d).get('status')`
  (src/glm4_query.py:90) raises for an ill-shaped envelope, landing in the
  outer `except`;
* `llmReply` — the oracle for the single `self.query(...)` call on the
  success path;
* `loads` — Python's `json.loads` on the reply text (`.error e` =
  `JSONDecodeError` with `str(e) = e`).

Inside the gate, prompt construction evaluates `almanac_result['result']`
(src/glm4_query.py:104), which raises `KeyError` when the gated almanac
envelope has no `result` key — caught by the outer `except`, so the LLM is
never called on that path. The weather envelope and the prompt text itself
carry no further control flow and are not reproduced. Returns
`(envelope, llmCalls)` where `llmCalls` counts invocations of the LLM
client's `query` method in this run. -/
def get_daily_advice (solarResult almanacResult holidayResult : Json)
    (llmReply : LlmReply) (loads : String → Except String Json) :
    Json × Nat :=
  if optEqNum (solarResult.get "error_code") 0 &&
     optEqNum (almanacResult.get "error_code") 0 then
    if resultFieldIsDict holidayResult then
      match almanacResult.get "result" with
      | none =>
        -- KeyError at `almanac_result['result']` → outer except, no LLM call
        (generationFailure "KeyError", 0)
      | some _ =>
        match llmReply with
        | .fail envelope => (envelope, 1)  -- `return response`
        | .ok content =>
          match loads content with
          | .ok parsed =>
            (.obj [("error_code", .num 0), ("message", .str "success"),
                   ("data", parsed)], 1)
          | .error _ =>
            -- message NOT interpolated here (src/glm4_query.py:147)
            (.obj [("error_code", .num (-1)),
                   ("message", .str "解析AI响应失败"),
                   ("data", .str content)], 1)
    else
      -- AttributeError at the holiday-status lookup → outer except
      (generationFailure "AttributeError", 0)
  else
    (.obj [("error_code", .num (-1)), ("message", .str "获取基础数据失败"),
           ("data", .null)], 0)

end GLM4Query

namespace NewsIntegrationAPI

/-- One iteration of the collection loop
(src/news_integration_api.py:201-210): a dict item is reshaped to the
unified `{source, title, pubDate, url, id}` record; `item.get` on a
non-dict item raises `AttributeError` (caught only by the outer `except`
of `integrate_news_with_glm4`). -/
def unifyItem (sourceName : String) (item : Json) : Option Json :=
  match item with
  | .obj _ =>
    some (.obj [("source", .str sourceName),
                ("title", (item.get "title").getD (.str "")),
                ("pubDate", (item.get "pubDate").getD (.str "")),
                ("url", (item.get "url").getD (.str "")),
                ("id", (item.get "id").getD (.str ""))])
  | _ => none

/-- The per-source items `source_data.get('data', [])` as iterated by
`for i, item in enumerate(items)`: a list yields its elements; an empty
dict or empty string iterates zero times; a non-empty dict or string
yields non-dict elements (keys / characters) whose `.get` raises; any
other value raises `TypeError` at the `for` itself. -/
def itemsOf (sourceData : Json) : Option (List Json) :=
  match (sourceData.get "data").getD (.arr []) with
  | .arr xs => some xs
  | .obj [] => some []
  | .str "" => some []
  | _ => none

/-- The per-source collection loop of
`NewsIntegrationAPI.integrate_news_with_glm4`
(src/news_integration_api.py:194-217): sources whose envelope has
`error_code == 0` contribute their items, reshaped to the unified record;
failed sources are skipped. `none` models an exception escaping the loop
to the outer `except`: `source_data.get('error_code')` on a non-dict
source envelope, or an ill-shaped `data` value / non-dict item (see
`itemsOf` / `unifyItem`). -/
def collectNewsItems : List (String × Json) → Option (List Json)
  | [] => some []
  | (sourceName, sourceData) :: rest =>
    match sourceData with
    | .obj _ =>
      if optEqNum (sourceData.get "error_code") 0 then
        match itemsOf sourceData with
        | some items =>
          match items.mapM (unifyItem sourceName), collectNewsItems rest with
          | some here, some further => some (here ++ further)
          | _, _ => none
        | none => none
      else collectNewsItems rest
    | _ => none

/-- The outer `except` arm envelope of `integrate_news_with_glm4`
(src/news_integration_api.py:364-371): `{'error_code': -1, 'message':
f'整合失败: {str(e)}', 'data': None, 'raw_data': news_data}`. As with
`generationFailure`, `excText` stands for CPython's `str(e)`; the call
sites pass the exception class name as a stand-in, which no theorem
inspects. -/
def integrationFailure (excText : String) (rawData : Json) : Json :=
  .obj [("error_code", .num (-1)),
        ("message", .str ("整合失败: " ++ excText)),
        ("data", .null), ("raw_data", rawData)]

/-- `NewsIntegrationAPI.integrate_news_with_glm4`
(src/news_integration_api.py:177-371): short-circuit when no usable news
item was collected, otherwise one LLM call; a `JSONDecodeError` on the
reply is reported as a failure envelope whose message interpolates the
decoder error (`f'解析AI响应失败: {str(e)}'`, line 347) and whose `data`
carries the raw reply text (with the input echoed under `raw_data`). The
LLM-failure arm interpolates `response['message']` into its message
(line 359; a missing key raises `KeyError` into the outer `except`).
Returns `(envelope, llmCalls)`. -/
def integrate_news_with_glm4 (newsData : List (String × Json))
    (rawData : Json) (llmReply : LlmReply)
    (loads : String → Except String Json) : Json × Nat :=
  match collectNewsItems newsData with
  | none => (integrationFailure "AttributeError" rawData, 0)
  | some newsItems =>
    if newsItems.isEmpty then
      (.obj [("error_code", .num (-1)), ("message", .str "没有可用的新闻数据"),
             ("data", .arr [])], 0)
    else
      match llmReply with
      | .fail envelope =>
        match envelope.get "message" with
        | some m =>
          (.obj [("error_code", .num (-1)),
                 ("message", .str ("GLM4处理失败: " ++ pyStr m)),
                 ("data", .null), ("raw_data", rawData)], 1)
        | none =>
          -- `response['message']` raises KeyError → outer except
          (integrationFailure "KeyError" rawData, 1)
      | .ok content =>
        match loads content with
        | .ok parsed =>
          (.obj [("error_code", .num 0), ("message", .str "success"),
                 ("data", parsed), ("raw_data", rawData)], 1)
        | .error e =>
          (.obj [("error_code", .num (-1)),
                 ("message", .str ("解析AI响应失败: " ++ e)),
                 ("data", .str content), ("raw_data", rawData)], 1)

end NewsIntegrationAPI

/-- A description of one outbound HTTP call exactly as built at its
`requests.get` / `requests.post` call site: URL, query parameters, and the
`timeout=` keyword argument (`none` when the call site passes no timeout,
in which case the `requests` library waits indefinitely). -/
structure HttpRequest where
  url : String
  params : List (String × String)
  timeoutSeconds : Option Nat
deriving Repr, DecidableEq

/-- The cache-miss GET of `AlmanacQuery.query_almanac`
(src/almanac_query.py:192-198): `requests.get(self.base_url, params=params)`
— no `timeout=` argument. The date is reformatted to `YYYYMMDD`. -/
def almanacRequest (apiKey queryDate : String) : HttpRequest :=
  { url := "http://v.juhe.cn/laohuangli/d",
    params := [("key", apiKey), ("date", queryDate.replace "-" "")],
    timeoutSeconds := none }

/-- The cache-miss GET of `SolarTermsQuery.query`
(src/solar_terms_query.py:200-207): no `timeout=` argument. -/
def solarTermsRequest (apiKey year : String) (name : Option String) :
    HttpRequest :=
  { url := "http://apis.juhe.cn/fapig/solarTerms/query",
    params := [("key", apiKey), ("year", year),
               ("name", if strOptTruthy name then name.getD "" else "")],
    timeoutSeconds := none }

/-- The cache-miss GET of `HolidayQuery.query_today`
(src/holiday_query.py:147-153): no `timeout=` argument. -/
def holidayRequest (apiKey currentDate : String) : HttpRequest :=
  { url := "http://apis.juhe.cn/fapig/calendar/day",
    params := [("key", apiKey), ("date", currentDate)],
    timeoutSeconds := none }

/-- The GET of `CryptoNewsAPI.fetch_crypto_news`
(src/crypto_news_api.py:46-51): `timeout=30`. -/
def cryptoNewsRequest (size page : Nat) : HttpRequest :=
  { url := "https://api.theblockbeats.news/v1/open-api/open-flash",
    params := [("size", toString size), ("page", toString page),
               ("type", "push")],
    timeoutSeconds := some 30 }

/-- The token POST of `FeishuBot.get_access_token` (src/feishu_bot.py:95):
`timeout=10`. -/
def feishuAuthRequest : HttpRequest :=
  { url := "https://open.feishu.cn/open-apis/auth/v3/tenant_access_token/internal",
    params := [],
    timeoutSeconds := some 10 }

/-- The message POST of `FeishuBot.send_message` (src/feishu_bot.py:151):
`timeout=10`. -/
def feishuMessageRequest : HttpRequest :=
  { url := "https://open.feishu.cn/open-apis/im/v1/messages?receive_id_type=chat_id",
    params := [],
    timeoutSeconds := some 10 }

/-- The GET of `NewsIntegrationAPI.fetch_news_from_source`
(src/news_integration_api.py:77): `timeout=10`. -/
def newsSourceRequest (url : String) : HttpRequest :=
  { url := url, params := [], timeoutSeconds := some 10 }

/-- The observable outcome of calling a Python method: it either returns a
value normally or lets an exception escape to the caller. -/
inductive PyOutcome (α : Type) where
  | ret (a : α)
  | raises (exc : String)
deriving Repr, DecidableEq

namespace ExceptionBehavior

/-- Exception behaviour of `AlmanacQuery.save_to_cache`
(src/almanac_query.py:89-120): the whole body sits in
`try ... except Exception as e: logging.error(...)` with no re-raise, so
every storage outcome returns normally (`dbOutcome = some e` models the
storage layer raising `e`). -/
def save_to_cache (dbOutcome : Option String) : PyOutcome Unit :=
  match dbOutcome with
  | none => .ret ()
  | some _ => .ret ()  -- logged, swallowed

/-- Exception behaviour of `AlmanacQuery.save_almanac_explanation`
(src/almanac_query.py:286-299): the `except` arm logs **and then executes
`raise e`**, so a storage failure escapes to the caller. -/
def save_almanac_explanation (dbOutcome : Option String) : PyOutcome Unit :=
  match dbOutcome with
  | none => .ret ()
  | some e => .raises e

/-- Exception behaviour of `SolarTermsQuery.save_almanac_explanation`
(src/solar_terms_query.py:439-452): identical `raise e` re-raise. -/
def solar_save_almanac_explanation (dbOutcome : Option String) :
    PyOutcome Unit :=
  match dbOutcome with
  | none => .ret ()
  | some e => .raises e

/-- Exception behaviour of `SolarTermsQuery.save_seasonal_food`
(src/solar_terms_query.py:320-350): `except` arm logs and `raise e`. -/
def save_seasonal_food (dbOutcome : Option String) : PyOutcome Unit :=
  match dbOutcome with
  | none => .ret ()
  | some e => .raises e

end ExceptionBehavior

/-! ## Helper lemmas -/

section CacheHelpers

open AlmanacQuery

theorem get_save_same (cache : Cache) (date : String) (data : Json)
    (h : resultFieldIsDict data = true) :
    get_from_cache (save_to_cache cache date data) date = some data := by
  unfold save_to_cache
  rw [if_pos h]
  simp [get_from_cache, List.find?]

theorem filter_eq_after_filter_ne (cache : Cache) (date : String) :
    (cache.filter (fun kv => kv.1 ≠ date)).filter (fun kv => kv.1 = date) = [] := by
  induction cache with
  | nil => rfl
  | cons kv rest ih =>
    by_cases h : kv.1 = date
    · simp [List.filter_cons, h, ih]
    · simp [List.filter_cons, h, ih]

theorem keyCount_save (cache : Cache) (date : String) (data : Json)
    (h : resultFieldIsDict data = true) :
    keyCount (save_to_cache cache date data) date = 1 := by
  unfold save_to_cache
  rw [if_pos h]
  simp [keyCount, List.filter_cons, filter_eq_after_filter_ne]

theorem find_filter_ne (cache : Cache) (date k : String) (hk : k ≠ date) :
    (cache.filter (fun kv => kv.1 ≠ date)).find? (fun kv => kv.1 = k) =
      cache.find? (fun kv => kv.1 = k) := by
  induction cache with
  | nil => rfl
  | cons kv rest ih =>
    by_cases h : kv.1 = date
    · have h2 : kv.1 ≠ k := by rw [h]; exact fun he => hk he.symm
      rw [List.filter_cons_of_neg (by simp [h]),
          List.find?_cons_of_neg _ (by simp [h2]), ih]
    · by_cases h2 : kv.1 = k
      · rw [List.filter_cons_of_pos (by simp [h]),
            List.find?_cons_of_pos _ (by simp [h2]),
            List.find?_cons_of_pos _ (by simp [h2])]
      · rw [List.filter_cons_of_pos (by simp [h]),
            List.find?_cons_of_neg _ (by simp [h2]),
            List.find?_cons_of_neg _ (by simp [h2]), ih]

theorem get_save_other (cache : Cache) (date k : String) (data : Json)
    (hk : k ≠ date) :
    get_from_cache (save_to_cache cache date data) k = get_from_cache cache k := by
  have hdk : date ≠ k := fun h => hk h.symm
  unfold save_to_cache
  by_cases h : resultFieldIsDict data = true
  · rw [if_pos h]
    unfold get_from_cache
    rw [List.find?_cons_of_neg _ (by simp [hdk]), find_filter_ne cache date k hk]
  · rw [if_neg h]

end CacheHelpers

section CryptoHelpers

open CryptoNewsAPI

end CryptoHelpers

/-! ## Claim theorems -/

/-- C1: Aggregator all-or-nothing — whenever one of the two required
upstream envelopes (solar-term query or almanac query) carries
`error_code != 0`, `GLM4Query.get_daily_advice` returns the fixed failure
envelope and performs zero calls to the LLM client's `query` method. -/
theorem daily_advice_all_or_nothing (solarResult almanacResult holidayResult : Json)
    (llmReply : LlmReply) (loads : String → Except String Json)
    (h : optEqNum (solarResult.get "error_code") 0 = false ∨
         optEqNum (almanacResult.get "error_code") 0 = false) :
    GLM4Query.get_daily_advice solarResult almanacResult holidayResult
      llmReply loads =
      (.obj [("error_code", .num (-1)), ("message", .str "获取基础数据失败"),
             ("data", .null)], 0) := by
  unfold GLM4Query.get_daily_advice
  rcases h with h | h <;> simp [h]

theorem daily_advice_all_or_nothing_witness :
    optEqNum ((Json.obj [("error_code", Json.num 10001)]).get "error_code") 0 = false ∧
    GLM4Query.get_daily_advice (Json.obj [("error_code", Json.num 10001)])
      (Json.obj [("error_code", Json.num 0)]) (Json.obj []) (.ok "[]")
      (fun _ => .error "Expecting value: line 1 column 1 (char 0)") =
      (.obj [("error_code", .num (-1)), ("message", .str "获取基础数据失败"),
             ("data", .null)], 0) :=
  ⟨rfl, daily_advice_all_or_nothing _ _ _ _ _ (Or.inl rfl)⟩

/-- C2 counterexample: a pre-populated `almanac_cache` row whose payload
deserialises to a falsy value (here the empty JSON object) does NOT
suppress the outbound HTTP call — `if cached_data:` treats it as a miss,
so `query_almanac` performs one `requests.get` although the date is present
in the cache. -/
theorem cache_hit_truthiness_counterexample :
    AlmanacQuery.get_from_cache [("2024-02-05", Json.obj [])] "2024-02-05" =
      some (Json.obj []) ∧
    (AlmanacQuery.query_almanac (some "2024-02-05") "2024-02-06"
      [("2024-02-05", Json.obj [])]
      (some (Json.obj [("error_code", Json.num 0)])) none).2.2 = 1 :=
  ⟨rfl, rfl⟩

/-- C2 (amended): for a pre-populated cache entry whose payload is truthy
(e.g. any non-empty JSON object — which is the only shape the code itself
ever stores), `query_almanac` performs no outbound HTTP call and returns
the cached payload itself as the envelope, leaving the cache unchanged. -/
theorem cache_hit_no_http (cache : AlmanacQuery.Cache) (date currentDate : String)
    (v : Json) (httpResp : Option Json) (dbOutcome : Option String)
    (hd : date ≠ "") (hc : AlmanacQuery.get_from_cache cache date = some v)
    (ht : v.truthy = true) :
    AlmanacQuery.query_almanac (some date) currentDate cache httpResp dbOutcome =
      (v, cache, 0) := by
  unfold AlmanacQuery.query_almanac
  simp [hd, hc, ht]

theorem cache_hit_no_http_witness :
    AlmanacQuery.query_almanac (some "2024-02-05") "2024-02-06"
      [("2024-02-05", Json.obj [("error_code", Json.num 0)])]
      (some (Json.obj [])) none =
      (Json.obj [("error_code", Json.num 0)],
       [("2024-02-05", Json.obj [("error_code", Json.num 0)])], 0) :=
  cache_hit_no_http _ _ _ _ _ _ (by decide) rfl rfl

/-- C3: when the upstream payload reports a non-success status
(`error_code != 0`), both `AlmanacQuery.query_almanac` and
`SolarTermsQuery.query` return that failing payload as their envelope
(so its `error_code` is still not 0) and leave their cache tables
completely unchanged. -/
theorem upstream_failure_no_cache_write
    (almCache : AlmanacQuery.Cache) (solCache : SolarTermsQuery.SolarCache)
    (date currentDate year currentYear : String) (name : Option String)
    (dbOutcome : Option String) (resultA resultS : List (String × Json))
    (hd : date ≠ "") (hy : year ≠ "")
    (hmissA : optTruthy (AlmanacQuery.get_from_cache almCache date) = false)
    (hmissS : SolarTermsQuery.get_from_cache solCache year name = none)
    (hfailA : optEqNum ((Json.obj resultA).get "error_code") 0 = false)
    (hfailS : optEqNum ((Json.obj resultS).get "error_code") 0 = false) :
    AlmanacQuery.query_almanac (some date) currentDate almCache
      (some (.obj resultA)) dbOutcome = (.obj resultA, almCache, 1) ∧
    SolarTermsQuery.query (some year) currentYear name solCache
      (some (.obj resultS)) = (.obj resultS, solCache, 1) := by
  constructor
  · unfold AlmanacQuery.query_almanac AlmanacQuery.queryFetch
    cases hget : AlmanacQuery.get_from_cache almCache date with
    | none => simp [hd, hget, hfailA]
    | some cached =>
      rw [hget] at hmissA
      simp only [optTruthy] at hmissA
      simp [hd, hget, hmissA, hfailA]
  · unfold SolarTermsQuery.query
    have hy' : strOptTruthy (some year) = true := by
      simp [strOptTruthy, hy]
    simp [hy', hy, hmissS, hfailS]

theorem upstream_failure_no_cache_write_witness :
    AlmanacQuery.query_almanac (some "2024-02-05") "2024-02-06" []
      (some (.obj [("error_code", Json.num 205),
                   ("reason", Json.str "NOT MATCH FORMAT")])) none =
      (.obj [("error_code", Json.num 205),
             ("reason", Json.str "NOT MATCH FORMAT")], [], 1) ∧
    SolarTermsQuery.query (some "2024") "2025" none []
      (some (.obj [("error_code", Json.num 10012)])) =
      (.obj [("error_code", Json.num 10012)], [], 1) :=
  upstream_failure_no_cache_write [] [] "2024-02-05" "2024-02-06" "2024" "2025"
    none none _ _ (by decide) (by decide) rfl rfl rfl rfl

/-- C4 counterexample: the claimed round-trip does not hold for every JSON
payload V — for a non-dict payload (here the number 1) the source's
`data.get('result', {})` raises `AttributeError`, the method's `except` arm
swallows it, NO row is written, and the subsequent `get_from_cache` returns
`None` instead of the payload. -/
theorem cache_round_trip_nondict_counterexample :
    AlmanacQuery.save_to_cache [] "2024-02-05" (Json.num 1) = [] ∧
    AlmanacQuery.get_from_cache
      (AlmanacQuery.save_to_cache [] "2024-02-05" (Json.num 1)) "2024-02-05" =
      none ∧
    AlmanacQuery.keyCount
      (AlmanacQuery.save_to_cache [] "2024-02-05" (Json.num 1)) "2024-02-05" = 0 :=
  ⟨rfl, rfl, rfl⟩

/-- C4 (amended): cache round-trip for the almanac response cache, for the
payloads `save_to_cache` can actually store — JSON objects whose `result`
value (defaulting to the empty object) is itself an object, which covers
every upstream success response the client caches. For such V: after
`save_to_cache(K, V)` a `get_from_cache(K)` returns exactly `V`; a second
`save_to_cache(K, V₂)` overwrites it (last-write-wins); the `date` primary
key keeps at most one row per key; and a write never disturbs another
key's entry. Any other payload makes the field extraction raise
`AttributeError` inside the writer, which logs and writes nothing. -/
theorem cache_round_trip (cache : AlmanacQuery.Cache) (date : String)
    (v v₂ : Json) (hv : resultFieldIsDict v = true)
    (hv₂ : resultFieldIsDict v₂ = true) :
    AlmanacQuery.get_from_cache (AlmanacQuery.save_to_cache cache date v) date =
      some v ∧
    AlmanacQuery.get_from_cache
      (AlmanacQuery.save_to_cache (AlmanacQuery.save_to_cache cache date v) date v₂)
      date = some v₂ ∧
    AlmanacQuery.keyCount (AlmanacQuery.save_to_cache cache date v) date = 1 ∧
    (∀ k, k ≠ date →
      AlmanacQuery.get_from_cache (AlmanacQuery.save_to_cache cache date v) k =
        AlmanacQuery.get_from_cache cache k) :=
  ⟨get_save_same cache date v hv,
   get_save_same _ date v₂ hv₂,
   keyCount_save cache date v hv,
   fun k hk => get_save_other cache date k v hk⟩

theorem cache_round_trip_witness :
    AlmanacQuery.get_from_cache
      (AlmanacQuery.save_to_cache []
        "2024-02-05" (Json.obj [("error_code", Json.num 0)])) "2024-02-05" =
      some (Json.obj [("error_code", Json.num 0)]) :=
  (cache_round_trip [] "2024-02-05" (Json.obj [("error_code", Json.num 0)])
    (Json.obj [("error_code", Json.num 0), ("result", Json.obj [])])
    rfl rfl).1

/-- C5 counterexample: `AlmanacQuery.save_almanac_explanation` does NOT
swallow storage failures — its `except` arm logs and then re-executes
`raise e`, so a failing write propagates the exception to the caller. -/
theorem save_explanation_raises_counterexample :
    ExceptionBehavior.save_almanac_explanation (some "disk I/O error") =
      PyOutcome.raises "disk I/O error" := rfl

/-- C5 (amended): `save_to_cache` is fire-and-forget (every storage outcome
returns normally) and the public query method converts a request exception
into an error envelope instead of raising; but the explanation/seasonal-food
cache writers (`save_almanac_explanation` in both classes and
`save_seasonal_food`) log and then RE-RAISE the storage exception. -/
theorem put_exception_policy :
    (∀ dbOutcome, ExceptionBehavior.save_to_cache dbOutcome = PyOutcome.ret ()) ∧
    (∀ e, ExceptionBehavior.save_almanac_explanation (some e) = PyOutcome.raises e) ∧
    (∀ e, ExceptionBehavior.solar_save_almanac_explanation (some e) =
      PyOutcome.raises e) ∧
    (∀ e, ExceptionBehavior.save_seasonal_food (some e) = PyOutcome.raises e) ∧
    (∀ cache currentDate dbOutcome,
      AlmanacQuery.query_almanac none currentDate cache none dbOutcome =
        (AlmanacQuery.requestErrorEnvelope, cache, 1) ∨
      ∃ v, AlmanacQuery.query_almanac none currentDate cache none dbOutcome =
        (v, cache, 0)) := by
  refine ⟨fun o => by cases o <;> rfl, fun e => rfl, fun e => rfl, fun e => rfl, ?_⟩
  intro cache currentDate dbOutcome
  unfold AlmanacQuery.query_almanac AlmanacQuery.queryFetch
  dsimp only
  cases hget : AlmanacQuery.get_from_cache cache currentDate with
  | none => left; rfl
  | some cached =>
    by_cases ht : cached.truthy
    · right; exact ⟨cached, by simp [ht]⟩
    · left; simp [ht]

/-- C6: when the LLM client's reply is a string that fails JSON parsing,
both aggregators (`GLM4Query.get_daily_advice` and
`NewsIntegrationAPI.integrate_news_with_glm4`) return a failure envelope
(`error_code = -1`) whose `data` field carries the raw reply string
verbatim (the news integrator additionally interpolating the decoder
error into its message and echoing the input under `raw_data`). -/
theorem malformed_llm_reply_diagnostics
    (solarResult almanacResult holidayResult resultVal : Json)
    (content errText : String) (loads : String → Except String Json)
    (newsData : List (String × Json)) (newsItems : List Json) (rawData : Json)
    (hs : optEqNum (solarResult.get "error_code") 0 = true)
    (ha : optEqNum (almanacResult.get "error_code") 0 = true)
    (hh : resultFieldIsDict holidayResult = true)
    (har : almanacResult.get "result" = some resultVal)
    (hl : loads content = .error errText)
    (hn : NewsIntegrationAPI.collectNewsItems newsData = some newsItems)
    (hne : newsItems.isEmpty = false) :
    GLM4Query.get_daily_advice solarResult almanacResult holidayResult
      (.ok content) loads =
      (.obj [("error_code", .num (-1)), ("message", .str "解析AI响应失败"),
             ("data", .str content)], 1) ∧
    NewsIntegrationAPI.integrate_news_with_glm4 newsData rawData (.ok content)
      loads =
      (.obj [("error_code", .num (-1)),
             ("message", .str ("解析AI响应失败: " ++ errText)),
             ("data", .str content), ("raw_data", rawData)], 1) := by
  constructor
  · unfold GLM4Query.get_daily_advice
    simp [hs, ha, hh, har, hl]
  · unfold NewsIntegrationAPI.integrate_news_with_glm4
    simp [hn, hne, hl]

theorem malformed_llm_reply_diagnostics_witness :
    (fun _ : String =>
      (Except.error "Expecting value: line 1 column 1 (char 0)" :
        Except String Json)) "not json" =
      .error "Expecting value: line 1 column 1 (char 0)" ∧
    GLM4Query.get_daily_advice (Json.obj [("error_code", Json.num 0)])
      (Json.obj [("error_code", Json.num 0), ("result", Json.obj [])])
      (Json.obj []) (.ok "not json")
      (fun _ => .error "Expecting value: line 1 column 1 (char 0)") =
      (.obj [("error_code", .num (-1)), ("message", .str "解析AI响应失败"),
             ("data", .str "not json")], 1) :=
  ⟨rfl,
   (malformed_llm_reply_diagnostics (Json.obj [("error_code", Json.num 0)])
     (Json.obj [("error_code", Json.num 0), ("result", Json.obj [])])
     (Json.obj []) (Json.obj []) "not json"
     "Expecting value: line 1 column 1 (char 0)"
     (fun _ => .error "Expecting value: line 1 column 1 (char 0)")
     [("jin10", Json.obj [("error_code", Json.num 0),
                          ("data", Json.arr [Json.obj []])])]
     [Json.obj [("source", Json.str "jin10"), ("title", Json.str ""),
                ("pubDate", Json.str ""), ("url", Json.str ""),
                ("id", Json.str "")]]
     Json.null rfl rfl rfl rfl rfl rfl rfl).1⟩

theorem get_access_token_fetches (st : FeishuBot.State) (now : Int)
    (authResp : Option Json) (h : FeishuBot.tokenAlive st now = false) :
    (FeishuBot.get_access_token st now authResp).2.2 = 1 := by
  unfold FeishuBot.get_access_token
  rw [if_neg (by simp [h])]
  cases authResp with
  | none => rfl
  | some r =>
    cases r with
    | obj fields =>
      dsimp only
      by_cases hc : optEqNum ((Json.obj fields).get "code") 0 = true
      · rw [if_pos hc]
      · rw [if_neg hc]
    | null => rfl
    | bool b => rfl
    | num n => rfl
    | str s => rfl
    | arr xs => rfl

theorem send_message_fetches (st : FeishuBot.State) (now : Int)
    (authResp postResp : Option Json) (h : FeishuBot.tokenAlive st now = false) :
    (FeishuBot.send_message st now authResp postResp).2.2.1 = 1 := by
  have hf := get_access_token_fetches st now authResp h
  unfold FeishuBot.send_message
  rcases hg : FeishuBot.get_access_token st now authResp with ⟨token, st', fetches⟩
  rw [hg] at hf
  dsimp only at hf ⊢
  cases token with
  | none => exact hf
  | some t =>
    dsimp only
    by_cases ht : t = ""
    · rw [if_pos ht]; exact hf
    · rw [if_neg ht]
      cases postResp with
      | none => exact hf
      | some r =>
        dsimp only
        by_cases hc : optEqNum (r.get "code") 0 = true
        · rw [if_pos hc]; exact hf
        · rw [if_neg hc]; exact hf

/-- C7: Delivery Sink token lifecycle — a successful token fetch caches the
expiry as `now + (TTL − 300)` (the server-declared TTL minus five minutes);
with a dead cached token (absent, empty or expired) `send_message` performs
exactly one token fetch; and if that fetch fails, `send_message` returns
`False` without issuing the message POST and without retrying. -/
theorem feishu_token_lifecycle (st : FeishuBot.State) (now E : Int)
    (tok : String) (authResp postResp : Option Json)
    (h : FeishuBot.tokenAlive st now = false) :
    FeishuBot.get_access_token st now
        (some (.obj [("code", .num 0), ("tenant_access_token", .str tok),
                     ("expire", .num E)])) =
      (some tok, ⟨some tok, some (now + (E - 300))⟩, 1) ∧
    (FeishuBot.send_message st now authResp postResp).2.2.1 = 1 ∧
    FeishuBot.send_message st now none postResp = (false, st, 1, 0) := by
  refine ⟨?_, send_message_fetches st now authResp postResp h, ?_⟩
  · unfold FeishuBot.get_access_token
    rw [if_neg (by simp [h])]
    rfl
  · unfold FeishuBot.send_message FeishuBot.get_access_token
    rw [if_neg (by simp [h])]

theorem feishu_token_lifecycle_witness :
    FeishuBot.tokenAlive ⟨some "old-token", some 5⟩ 10 = false ∧
    FeishuBot.get_access_token ⟨some "old-token", some 5⟩ 10
        (some (.obj [("code", .num 0), ("tenant_access_token", .str "new-token"),
                     ("expire", .num 7200)])) =
      (some "new-token", ⟨some "new-token", some (10 + (7200 - 300))⟩, 1) ∧
    FeishuBot.send_message ⟨some "old-token", some 5⟩ 10 none
        (some (.obj [("code", .num 0)])) =
      (false, ⟨some "old-token", some 5⟩, 1, 0) :=
  ⟨by decide,
   (feishu_token_lifecycle ⟨some "old-token", some 5⟩ 10 7200 "new-token"
     none (some (.obj [("code", .num 0)])) (by decide)).1,
   (feishu_token_lifecycle ⟨some "old-token", some 5⟩ 10 7200 "new-token"
     none (some (.obj [("code", .num 0)])) (by decide)).2.2⟩

/-- C8 counterexample: the failure envelope produced by
`AlmanacQuery.query_almanac` when the outbound request raises is
`{'error_code': -1, 'reason': ...}` — it carries NO `message` key and NO
`data` key, so the claimed uniform `{error_code, message, data}` shape does
not hold for the almanac client. -/
theorem almanac_failure_envelope_shape_counterexample :
    (AlmanacQuery.query_almanac (some "2024-02-05") "2024-02-05" [] none
      none).1.get "message" = none ∧
    (AlmanacQuery.query_almanac (some "2024-02-05") "2024-02-05" [] none
      none).1.get "data" = none ∧
    optEqNum ((AlmanacQuery.query_almanac (some "2024-02-05") "2024-02-05" []
      none none).1.get "error_code") 0 = false :=
  ⟨rfl, rfl, rfl⟩

/-- C8 (amended): the clients use two envelope dialects. The GLM4 client's
`query` and the crypto-news client's `fetch_crypto_news` always return an
envelope with all three keys `{error_code, message, data}`, while the
almanac, solar-terms and holiday clients pass through the upstream juhe
dialect `{error_code, reason, ...}` — their request-exception envelopes
carry `error_code` and `reason` but neither `message` nor `data`. Even for
the three-key clients, `error_code == 0` does not hold exactly when `data`
is populated: a successful crypto fetch whose upstream body has no `data`
key returns `error_code = 0` with an empty (falsy) `data` dict. -/
theorem envelope_dialects :
    (∀ httpResp,
      ((CryptoNewsAPI.fetch_crypto_news httpResp).get "error_code").isSome ∧
      ((CryptoNewsAPI.fetch_crypto_news httpResp).get "message").isSome ∧
      ((CryptoNewsAPI.fetch_crypto_news httpResp).get "data").isSome) ∧
    (∀ sdkOutcome,
      ((GLM4Query.glm4_query_envelope sdkOutcome).get "error_code").isSome ∧
      ((GLM4Query.glm4_query_envelope sdkOutcome).get "message").isSome ∧
      ((GLM4Query.glm4_query_envelope sdkOutcome).get "data").isSome) ∧
    (CryptoNewsAPI.fetch_crypto_news (some (.obj [("status", .num 0)])) =
      .obj [("error_code", .num 0), ("message", .str "获取成功"),
            ("data", .obj [])] ∧
     Json.truthy (.obj []) = false) ∧
    (CryptoNewsAPI.fetch_crypto_news none).get "data" = some (.obj []) ∧
    (AlmanacQuery.requestErrorEnvelope.get "error_code" = some (.num (-1)) ∧
     AlmanacQuery.requestErrorEnvelope.get "reason" =
       some (.str "请求发生错误") ∧
     AlmanacQuery.requestErrorEnvelope.get "message" = none ∧
     AlmanacQuery.requestErrorEnvelope.get "data" = none) ∧
    (SolarTermsQuery.requestErrorEnvelope.get "message" = none ∧
     SolarTermsQuery.requestErrorEnvelope.get "data" = none) ∧
    (HolidayQuery.requestErrorEnvelope.get "message" = none ∧
     HolidayQuery.requestErrorEnvelope.get "data" = none) := by
  refine ⟨?_, ?_, ⟨rfl, rfl⟩, rfl, ⟨rfl, rfl, rfl, rfl⟩, ⟨rfl, rfl⟩,
          ⟨rfl, rfl⟩⟩
  · intro httpResp
    unfold CryptoNewsAPI.fetch_crypto_news
    cases httpResp with
    | none => exact ⟨rfl, rfl, rfl⟩
    | some d =>
      cases d with
      | obj fields =>
        dsimp only
        by_cases hs : optEqNum ((Json.obj fields).get "status") 0 = true
        · rw [if_pos hs]; exact ⟨rfl, rfl, rfl⟩
        · rw [if_neg hs]; exact ⟨rfl, rfl, rfl⟩
      | null => exact ⟨rfl, rfl, rfl⟩
      | bool b => exact ⟨rfl, rfl, rfl⟩
      | num n => exact ⟨rfl, rfl, rfl⟩
      | str s => exact ⟨rfl, rfl, rfl⟩
      | arr xs => exact ⟨rfl, rfl, rfl⟩
  · intro sdkOutcome
    cases sdkOutcome with
    | ok content => exact ⟨rfl, rfl, rfl⟩
    | error e => exact ⟨rfl, rfl, rfl⟩

/-- C9 counterexample: the cache-miss GET of the almanac client is issued
with NO `timeout=` argument at all — the call can block indefinitely, so
the claimed fixed finite per-call timeout does not exist for this client. -/
theorem almanac_request_no_timeout_counterexample :
    (almanacRequest "68c8a6c0be8e9cd53cd92235fb99b287" "2024-02-05").timeoutSeconds
      = none := rfl

/-- C9 (amended): the crypto-news client, the news-source fetcher and the
delivery sink pass fixed finite timeouts (30 s / 10 s / 10 s), but the
almanac, solar-terms and holiday clients call `requests.get` without any
`timeout=` argument on their cache-miss path, so those three calls have no
timeout mechanism at all. -/
theorem request_timeouts :
    (∀ apiKey queryDate,
      (almanacRequest apiKey queryDate).timeoutSeconds = none) ∧
    (∀ apiKey year name,
      (solarTermsRequest apiKey year name).timeoutSeconds = none) ∧
    (∀ apiKey currentDate,
      (holidayRequest apiKey currentDate).timeoutSeconds = none) ∧
    (∀ size page, (cryptoNewsRequest size page).timeoutSeconds = some 30) ∧
    feishuAuthRequest.timeoutSeconds = some 10 ∧
    feishuMessageRequest.timeoutSeconds = some 10 ∧
    (∀ url, (newsSourceRequest url).timeoutSeconds = some 10) :=
  ⟨fun _ _ => rfl, fun _ _ _ => rfl, fun _ _ => rfl, fun _ _ => rfl,
   rfl, rfl, fun _ => rfl⟩

